import Mathlib

/-!
Verification of the Naija-Prop-Intel core (Risk/ROI Scoring Engine and
Geo-Corridor Matcher) against its natural-language specification.

The Python source (src/analyzer.py, src/route_search.py) is embedded
shallowly: locality records become a Lean structure, monetary and score
arithmetic is carried out exactly over the rationals (the Python source
uses floats; the spec and all claims speak in exact decimal arithmetic,
which the rational embedding realises), and the Google-Maps distance
collaborator of route_search.py is a function parameter, matching the
Distance Provider boundary of the spec.
-/

namespace NaijaPropIntel

/-- The Python builtin round, which rounds half to even, on an exact
rational, returning an integer.  This models round(x) as used in
route_search.py line 253 (and, scaled by 10, round(x, 1) in analyzer.py
line 116). -/
def pyRound (q : ℚ) : ℤ :=
  let f := ⌊q⌋
  let r := q - f
  if r < 1/2 then f
  else if 1/2 < r then f + 1
  else if 2 ∣ f then f else f + 1

/-- round(x, 1) of analyzer.py line 116: round to one decimal place. -/
def round1 (q : ℚ) : ℚ := (pyRound (q * 10) : ℚ) / 10

/-- A locality record of data/zones.json, keeping exactly the fields the
scoring engine and corridor matcher read.  Scores are the integers stored
in the reference data (the spec constrains them to [0,100]); monetary
fields are rationals; the two optional hidden-cost fields mirror the
dictionary-key presence tests of analyzer.py lines 226-231. -/
structure Zone where
  flood_score : ℕ
  security_score : ℕ
  infrastructure_score : ℕ
  avg_price_per_sqm : ℤ
  price_range : List Char
  rental_yield : ℚ
  appreciation_5yr : ℚ
  days_to_sell : ℕ
  omo_onile : ℚ
  land_survey : ℚ
  flood_insurance : ℚ
  generator_diesel_monthly : ℚ
  borehole_maintenance : Option ℚ
  estate_service_charge : Option ℚ
  coordinates : ℚ × ℚ
  deriving DecidableEq, Repr

/-- The overall risk tier of analyzer.py lines 101-109. -/
inductive RiskTier where
  | low
  | moderate
  | high
  deriving DecidableEq, Repr

/-- The price-verdict status strings of analyzer.py lines 338-361. -/
inductive PriceStatus where
  | underpriced
  | fair
  | elevated
  | overpriced
  | unknown
  deriving DecidableEq, Repr

/-! ### The price-range parser (analyzer.py lines 329-334)

analyzer.py extracts the typical range from the textual field with
re.search over the pattern matching a naira sign, digits, the letter M,
optional whitespace, a hyphen, optional whitespace, and a second
naira-digits-M group.  Because the digit run is followed by the disjoint
letter M and the whitespace run by the disjoint hyphen, the regex engine
never backtracks into a successful alternative, so maximal-munch scanning
from the leftmost feasible position reproduces re.search exactly. -/

/-- ASCII whitespace as matched by the regex class \s. -/
def isPyWs (c : Char) : Bool :=
  c = ' ' || c = '\t' || c = '\n' || c = '\r' || c = '\x0b' || c = '\x0c'

/-- Numeric value of a digit run, most significant first. -/
def digitsToNat (ds : List Char) : ℕ :=
  ds.foldl (fun n c => 10 * n + (c.toNat - '0'.toNat)) 0

/-- Attempt to match the range pattern at the head of the character list. -/
def matchRangeAt (s : List Char) : Option (ℕ × ℕ) :=
  match s with
  | '₦' :: rest =>
    let ds := rest.takeWhile Char.isDigit
    if ds.isEmpty then none else
    match rest.drop ds.length with
    | 'M' :: rest2 =>
      match rest2.dropWhile isPyWs with
      | '-' :: rest4 =>
        match rest4.dropWhile isPyWs with
        | '₦' :: rest6 =>
          let ds2 := rest6.takeWhile Char.isDigit
          if ds2.isEmpty then none else
          match rest6.drop ds2.length with
          | 'M' :: _ => some (digitsToNat ds, digitsToNat ds2)
          | _ => none
        | _ => none
      | _ => none
    | _ => none
  | _ => none

/-- re.search over the pattern: leftmost match wins. -/
def parseRange : List Char → Option (ℕ × ℕ)
  | [] => none
  | c :: rest =>
    match matchRangeAt (c :: rest) with
    | some r => some r
    | none => parseRange rest

/-- PropertyAnalyzer._evaluate_price (analyzer.py lines 317-364), reduced
to the returned status; the verdict strings and echo fields of the result
dictionary carry no further information. -/
def evaluate_price (offered_price : ℚ) (price_range : List Char) : PriceStatus :=
  match parseRange price_range with
  | none => .unknown
  | some (lo, hi) =>
    let low_range : ℚ := lo * 1000000
    let high_range : ℚ := hi * 1000000
    let mid_range : ℚ := (low_range + high_range) / 2
    if offered_price < low_range * 0.9 then .underpriced
    else if offered_price ≤ mid_range then .fair
    else if offered_price ≤ high_range then .elevated
    else .overpriced

/-! ### PropertyAnalyzer.analyze_property (analyzer.py lines 51-170)

The locality-name resolution and the not-found error path (lines 72-78)
concern the Repository lookup; every claim under analysis quantifies over
the locality record itself, so the embedding takes the resolved Zone
directly.  Of the result dictionary we keep the computed fields; the
remaining entries echo the record verbatim. -/

structure AnalysisResult where
  smart_score : ℚ
  overall_risk : RiskTier
  price_analysis : PriceStatus
  total_hidden : ℚ
  deriving DecidableEq, Repr

def analyze_property (zone : Zone) (price : ℚ) : AnalysisResult :=
  let flood_risk : ℚ := zone.flood_score
  let security_score : ℚ := zone.security_score
  let infrastructure_score : ℚ := zone.infrastructure_score
  let flood_safety : ℚ := 100 - flood_risk
  let smart_score : ℚ :=
    flood_safety * 0.4 + security_score * 0.3 + infrastructure_score * 0.3
  let overall_risk : RiskTier :=
    if smart_score ≥ 80 then .low
    else if smart_score ≥ 65 then .moderate
    else .high
  { smart_score := round1 smart_score
    overall_risk := overall_risk
    price_analysis := evaluate_price price zone.price_range
    total_hidden := zone.omo_onile + zone.land_survey + zone.flood_insurance }

/-! ### PropertyAnalyzer.calculate_roi (analyzer.py lines 172-296)

The computation is embedded component by component, each definition
mirroring the homonymous local of the Python body; calculate_roi then
assembles them.  The two Python divisions — net_return / price (line 239)
and roi_percentage / holding_period (line 288) — raise ZeroDivisionError
on a zero divisor, which the embedding models by returning none. -/

def one_time_costs (zone : Zone) : ℚ :=
  zone.omo_onile + zone.land_survey

def annual_costs (zone : Zone) : ℚ :=
  zone.generator_diesel_monthly * 12 + zone.flood_insurance
    + (zone.borehole_maintenance.getD 0)
    + (zone.estate_service_charge.getD 0)

def capital_gain (zone : Zone) (price : ℚ) (holding_period : ℤ) : ℚ :=
  price * (zone.appreciation_5yr * holding_period)

def total_hidden_costs (zone : Zone) (holding_period : ℤ) : ℚ :=
  one_time_costs zone + annual_costs zone * holding_period

structure RoiResult where
  total_rental_income : ℚ
  capital_gain : ℚ
  one_time_costs : ℚ
  annual_costs : ℚ
  total_hidden_costs : ℚ
  net_return : ℚ
  roi_percentage : ℚ
  annual_roi : ℚ
  deriving DecidableEq, Repr

def calculate_roi (zone : Zone) (price : ℚ) (holding_period : ℤ) :
    Option RoiResult :=
  if price = 0 then none
  else if holding_period = 0 then none
  else
    let annual_rental_income := price * zone.rental_yield
    let total_rental_income := annual_rental_income * holding_period
    let cg := capital_gain zone price holding_period
    let th := total_hidden_costs zone holding_period
    let gross_return := total_rental_income + cg
    let net_return := gross_return - th
    let roi_percentage := net_return / price * 100
    some
      { total_rental_income := total_rental_income
        capital_gain := cg
        one_time_costs := one_time_costs zone
        annual_costs := annual_costs zone
        total_hidden_costs := th
        net_return := net_return
        roi_percentage := roi_percentage
        annual_roi := roi_percentage / holding_period }

/-! ### RouteSearcher (src/route_search.py)

Coordinates are rational latitude/longitude pairs.  The concrete distance
function of the source (_calculate_distance, lines 218-238: haversine on
radius 6371 km, rounded to 2 decimals) evaluates transcendental
functions, so the embedding abstracts it as a parameter d — exactly the
Distance Provider boundary the spec draws in its interface section; every
property proved below holds for any provider, and hypotheses such as the
triangle inequality record the metric facts the haversine distance
satisfies. -/

abbrev Coord := ℚ × ℚ

/-- RouteSearcher._is_along_route (route_search.py lines 199-216). -/
def is_along_route (d : Coord → Coord → ℚ) (origin destination point : Coord)
    (corridor_width_km : ℚ) : Bool :=
  let dist_origin_point := d origin point
  let dist_point_dest := d point destination
  let dist_origin_dest := d origin destination
  let total_via_point := dist_origin_point + dist_point_dest
  let detour := |total_via_point - dist_origin_dest|
  detour ≤ corridor_width_km

/-- RouteSearcher._calculate_smart_score (route_search.py lines 240-253):
round(security*0.35 + infrastructure*0.35 + (100 - flood)*0.30). -/
def route_smart_score (zone : Zone) : ℤ :=
  pyRound ((zone.security_score : ℚ) * 0.35
    + (zone.infrastructure_score : ℚ) * 0.35
    + (100 - (zone.flood_score : ℚ)) * 0.30)

/-- The price-ceiling test of route_search.py line 103:
if max_price_per_sqm and price > max_price_per_sqm: continue.
A candidate passes unless the ceiling is present, truthy (a nonzero
Python int) and exceeded. -/
def pricePasses (max_price_per_sqm : Option ℤ) (price : ℤ) : Bool :=
  match max_price_per_sqm with
  | none => true
  | some m => !(decide (m ≠ 0) && decide (m < price))

/-- The three hard filters of route_search.py lines 102-108. -/
def zone_passes (max_price_per_sqm : Option ℤ) (min_security_score : ℤ)
    (max_flood_risk : ℤ) (zone : Zone) : Bool :=
  pricePasses max_price_per_sqm zone.avg_price_per_sqm
    && decide (min_security_score ≤ (zone.security_score : ℤ))
    && decide ((zone.flood_score : ℤ) ≤ max_flood_risk)

/-- One entry of the properties list built at route_search.py
lines 116-129 (the fields computed by the search; the remaining fields
echo the record). -/
structure CorridorMatch where
  zone_name : String
  distance_from_origin_km : ℚ
  price_per_sqm : ℤ
  security_score : ℕ
  flood_risk_score : ℕ
  infrastructure_score : ℕ
  smart_score : ℤ
  deriving DecidableEq, Repr

def mkMatch (d : Coord → Coord → ℚ) (origin : Coord) (name : String)
    (zone : Zone) : CorridorMatch :=
  { zone_name := name
    distance_from_origin_km := d origin zone.coordinates
    price_per_sqm := zone.avg_price_per_sqm
    security_score := zone.security_score
    flood_risk_score := zone.flood_score
    infrastructure_score := zone.infrastructure_score
    smart_score := route_smart_score zone }

/-- The candidate loop and final sort of RouteSearcher.search_route_corridor
(route_search.py lines 85-132): origin and destination are already
resolved to coordinates (lines 68-76, delegated to the Repository or the
geocoder), and the surrounding route-details call (lines 78-82) only adds
presentation metadata.  Python's list.sort is stable, as is mergeSort. -/
def corridor_matches (d : Coord → Coord → ℚ) (zones : List (String × Zone))
    (origin destination : Coord) (corridor_width_km : ℚ)
    (max_price_per_sqm : Option ℤ) (min_security_score max_flood_risk : ℤ) :
    List CorridorMatch :=
  (zones.filterMap (fun nz =>
    if is_along_route d origin destination nz.2.coordinates corridor_width_km
    then
      if zone_passes max_price_per_sqm min_security_score max_flood_risk nz.2
      then some (mkMatch d origin nz.1 nz.2)
      else none
    else none)).mergeSort
    (fun a b => a.distance_from_origin_km ≤ b.distance_from_origin_km)

/-- The bedroom-to-area lookup of route_search.py line 277 with its
default of 120 square metres. -/
def sqm_estimate (bedrooms : ℤ) : ℤ :=
  if bedrooms = 2 then 80
  else if bedrooms = 3 then 120
  else if bedrooms = 4 then 160
  else if bedrooms = 5 then 200
  else 120

/-- Python int(q): truncation toward zero. -/
def pyInt (q : ℚ) : ℤ := if 0 ≤ q then ⌊q⌋ else ⌈q⌉

/-- RouteSearcher.search_by_budget_along_route (route_search.py
lines 255-287): derive the implied price ceiling from the budget and
delegate with the default filters (min security 50, max flood 70). -/
def search_by_budget (d : Coord → Coord → ℚ) (zones : List (String × Zone))
    (origin destination : Coord) (budget : ℤ) (bedrooms : ℤ)
    (corridor_width_km : ℚ) : List CorridorMatch :=
  let estimated_sqm := sqm_estimate bedrooms
  let max_price_per_sqm := pyInt ((budget : ℚ) / (estimated_sqm : ℚ))
  corridor_matches d zones origin destination corridor_width_km
    (some max_price_per_sqm) 50 70

/-! ### Concrete instances

Concrete records and distance tables used to evaluate the embedding at
specific inputs.  ajahZone carries the three scores of the worked example
in the spec (flood 75, security 55, infrastructure 60); the remaining
fields are a representative completion of the record. -/

/-- The characters of the market range text of the worked examples. -/
def range25to60 : List Char :=
  ['₦', '2', '5', 'M', ' ', '-', ' ', '₦', '6', '0', 'M']

/-- A decreasing range: parses, but with Lo greater than Hi. -/
def range100to50 : List Char :=
  ['₦', '1', '0', '0', 'M', ' ', '-', ' ', '₦', '5', '0', 'M']

def ajahZone : Zone :=
  { flood_score := 75
    security_score := 55
    infrastructure_score := 60
    avg_price_per_sqm := 150000
    price_range := range25to60
    rental_yield := 6/100
    appreciation_5yr := 80/100
    days_to_sell := 120
    omo_onile := 500000
    land_survey := 300000
    flood_insurance := 200000
    generator_diesel_monthly := 80000
    borehole_maintenance := none
    estate_service_charge := some 100000
    coordinates := (0, 0) }

/-- A two-valued metric on coordinates: 0 on the diagonal, 100 otherwise.
It satisfies the triangle inequality, so it is a legitimate Distance
Provider instantiation for concrete corridor evaluations. -/
def dTable : Coord → Coord → ℚ :=
  fun a b => if a = b then 0 else 100

/-- A distance table realising the boundary example of the spec: route
endpoints 20 km apart and a candidate whose detour is exactly the default
corridor width of 5 km (12 + 13 - 20 = 5).  It also satisfies the triangle
inequality. -/
def dRoute : Coord → Coord → ℚ := fun a b =>
  if a = b then 0
  else if (a, b) = (((1 : ℚ), (2 : ℚ)), ((5 : ℚ), (2 : ℚ)))
      ∨ (b, a) = (((1 : ℚ), (2 : ℚ)), ((5 : ℚ), (2 : ℚ))) then 20
  else if (a, b) = (((1 : ℚ), (2 : ℚ)), ((3 : ℚ), (4 : ℚ)))
      ∨ (b, a) = (((1 : ℚ), (2 : ℚ)), ((3 : ℚ), (4 : ℚ))) then 12
  else 13

/-! ### General lemmas about the embedding -/

theorem pyRound_intCast (n : ℤ) : pyRound (n : ℚ) = n := by
  simp [pyRound]

theorem round1_int_div_ten (k : ℤ) : round1 ((k : ℚ) / 10) = (k : ℚ) / 10 := by
  unfold round1
  rw [div_mul_cancel₀ _ (by norm_num : (10 : ℚ) ≠ 0), pyRound_intCast]

/-- The smart score of analyze_property is an exact multiple of one tenth
(the weights are 4/10 and 3/10 and the stored scores are integers). -/
theorem smart_score_den10 (z : Zone) :
    (100 - (z.flood_score : ℚ)) * 0.4 + (z.security_score : ℚ) * 0.3
        + (z.infrastructure_score : ℚ) * 0.3
      = ((400 - 4 * (z.flood_score : ℤ) + 3 * (z.security_score : ℤ)
          + 3 * (z.infrastructure_score : ℤ) : ℤ) : ℚ) / 10 := by
  push_cast
  norm_num
  ring

/-- Rounding to one decimal is the identity on the smart score, so the
risk bands of the unrounded value and of the reported value coincide. -/
theorem round1_smart_score (z : Zone) :
    round1 ((100 - (z.flood_score : ℚ)) * 0.4 + (z.security_score : ℚ) * 0.3
        + (z.infrastructure_score : ℚ) * 0.3)
      = (100 - (z.flood_score : ℚ)) * 0.4 + (z.security_score : ℚ) * 0.3
        + (z.infrastructure_score : ℚ) * 0.3 := by
  rw [smart_score_den10, round1_int_div_ten]

theorem analyze_smart_eq (z : Zone) (price : ℚ) :
    (analyze_property z price).smart_score
      = round1 ((100 - (z.flood_score : ℚ)) * 0.4 + (z.security_score : ℚ) * 0.3
          + (z.infrastructure_score : ℚ) * 0.3) := rfl

theorem analyze_risk_eq (z : Zone) (price : ℚ) :
    (analyze_property z price).overall_risk
      = (if ((100 - (z.flood_score : ℚ)) * 0.4 + (z.security_score : ℚ) * 0.3
            + (z.infrastructure_score : ℚ) * 0.3) ≥ 80 then RiskTier.low
         else if ((100 - (z.flood_score : ℚ)) * 0.4 + (z.security_score : ℚ) * 0.3
            + (z.infrastructure_score : ℚ) * 0.3) ≥ 65 then RiskTier.moderate
         else RiskTier.high) := rfl

/-- The verdict is UNKNOWN exactly when the textual range does not parse
(analyzer.py lines 332 and 359-364). -/
theorem evaluate_price_unknown_iff (price : ℚ) (range : List Char) :
    evaluate_price price range = .unknown ↔ parseRange range = none := by
  unfold evaluate_price
  cases hp : parseRange range with
  | none => simp
  | some p =>
    obtain ⟨lo, hi⟩ := p
    simp only
    split_ifs <;> simp

/-- The four price bands as characterisations of the elif chain of
analyzer.py lines 338-349, valid whenever the parsed bounds are ordered. -/
theorem evaluate_price_bands (price : ℚ) (range : List Char) (lo hi : ℕ)
    (hparse : parseRange range = some (lo, hi)) (hle : lo ≤ hi) :
    (evaluate_price price range = .underpriced ↔ price < (lo : ℚ) * 1000000 * 0.9)
    ∧ (evaluate_price price range = .fair
        ↔ (lo : ℚ) * 1000000 * 0.9 ≤ price
          ∧ price ≤ ((lo : ℚ) * 1000000 + (hi : ℚ) * 1000000) / 2)
    ∧ (evaluate_price price range = .elevated
        ↔ ((lo : ℚ) * 1000000 + (hi : ℚ) * 1000000) / 2 < price
          ∧ price ≤ (hi : ℚ) * 1000000)
    ∧ (evaluate_price price range = .overpriced ↔ (hi : ℚ) * 1000000 < price) := by
  have hlo : (0 : ℚ) ≤ (lo : ℚ) := Nat.cast_nonneg lo
  have hlh : (lo : ℚ) ≤ (hi : ℚ) := by exact_mod_cast hle
  have h09 : (0.9 : ℚ) = 9 / 10 := by norm_num
  unfold evaluate_price
  rw [hparse]
  simp only
  split_ifs with h1 h2 h3 <;>
    refine ⟨?_, ?_, ?_, ?_⟩ <;> simp <;> rw [h09] at * <;>
    first
    | linarith
    | (constructor <;> linarith)
    | (intro h; linarith)

/-- Monotone length of filterMap: if each hit of f is a hit of g, g hits
at least as often. -/
theorem filterMap_mono_length {α β : Type} (f g : α → Option β)
    (h : ∀ a b, f a = some b → g a = some b) (l : List α) :
    (l.filterMap f).length ≤ (l.filterMap g).length := by
  induction l with
  | nil => simp
  | cons a t ih =>
    cases hfa : f a with
    | none =>
      rw [List.filterMap_cons, hfa]
      cases hga : g a with
      | none => rw [List.filterMap_cons, hga]; exact ih
      | some b => rw [List.filterMap_cons, hga]; exact Nat.le_succ_of_le ih
    | some b =>
      rw [List.filterMap_cons, hfa, List.filterMap_cons, h a b hfa]
      simpa using ih

/-- Raising the security floor only removes candidates from the filter. -/
theorem zone_passes_mono (mp : Option ℤ) (s1 s2 mf : ℤ) (z : Zone)
    (hs : s1 ≤ s2) (h : zone_passes mp s2 mf z = true) :
    zone_passes mp s1 mf z = true := by
  simp only [zone_passes, Bool.and_eq_true, decide_eq_true_eq] at h ⊢
  exact ⟨⟨h.1.1, by omega⟩, h.2⟩

theorem sqm_estimate_pos (bedrooms : ℤ) : 0 < sqm_estimate bedrooms := by
  unfold sqm_estimate
  split_ifs <;> norm_num

/-! ### The claims -/

/-- Claim C1: analyze_property returns
smartScore = (100 - floodRisk) * 0.4 + security * 0.3 + infrastructure * 0.3
rounded to one decimal, and assigns riskTier LOW iff smartScore at least 80,
MODERATE iff smartScore in [65, 80), HIGH otherwise; in particular a record
with flood 75, security 55 and infrastructure 60 yields smartScore 44.5 and
tier HIGH. -/
theorem c1_smart_score_and_risk_tier :
    (∀ (z : Zone) (price : ℚ),
      (analyze_property z price).smart_score
          = round1 ((100 - (z.flood_score : ℚ)) * 0.4
              + (z.security_score : ℚ) * 0.3 + (z.infrastructure_score : ℚ) * 0.3)
        ∧ ((analyze_property z price).overall_risk = RiskTier.low
            ↔ 80 ≤ (analyze_property z price).smart_score)
        ∧ ((analyze_property z price).overall_risk = RiskTier.moderate
            ↔ 65 ≤ (analyze_property z price).smart_score
                ∧ (analyze_property z price).smart_score < 80)
        ∧ ((analyze_property z price).overall_risk = RiskTier.high
            ↔ (analyze_property z price).smart_score < 65))
    ∧ (analyze_property ajahZone 45000000).smart_score = 44.5
    ∧ (analyze_property ajahZone 45000000).overall_risk = RiskTier.high := by
  constructor
  · intro z price
    rw [analyze_smart_eq, analyze_risk_eq, round1_smart_score]
    set s : ℚ := (100 - (z.flood_score : ℚ)) * 0.4 + (z.security_score : ℚ) * 0.3
          + (z.infrastructure_score : ℚ) * 0.3 with hs
    refine ⟨rfl, ?_, ?_, ?_⟩ <;> split_ifs with h1 h2 <;> simp <;>
      first
      | linarith
      | (constructor <;> linarith)
      | (intro h; linarith)
  · constructor
    · rw [analyze_smart_eq, round1_smart_score]
      show (100 - ((75 : ℕ) : ℚ)) * 0.4 + ((55 : ℕ) : ℚ) * 0.3
          + ((60 : ℕ) : ℚ) * 0.3 = 44.5
      norm_num
    · rw [analyze_risk_eq]
      norm_num [ajahZone]

/-- Claim C2 (amended): the price verdict is total and deterministic —
evaluate_price is a function into the five statuses, UNKNOWN exactly when
the range does not parse — and the four band rules characterise the
outcome whenever the parsed range is ordered (Lo at most Hi); in
particular price 70,000,000 against range 25M-60M is OVERPRICED.  When the
parsed range is decreasing the UNDERPRICED test takes precedence over the
later rules, which is the amendment the counterexample forces. -/
theorem c2_price_verdict_bands :
    (∀ (price : ℚ) (range : List Char),
      evaluate_price price range = .unknown ↔ parseRange range = none)
    ∧ (∀ (price : ℚ) (range : List Char) (lo hi : ℕ),
        parseRange range = some (lo, hi) → lo ≤ hi →
        (evaluate_price price range = .underpriced
            ↔ price < (lo : ℚ) * 1000000 * 0.9)
        ∧ (evaluate_price price range = .fair
            ↔ (lo : ℚ) * 1000000 * 0.9 ≤ price
              ∧ price ≤ ((lo : ℚ) * 1000000 + (hi : ℚ) * 1000000) / 2)
        ∧ (evaluate_price price range = .elevated
            ↔ ((lo : ℚ) * 1000000 + (hi : ℚ) * 1000000) / 2 < price
              ∧ price ≤ (hi : ℚ) * 1000000)
        ∧ (evaluate_price price range = .overpriced
            ↔ (hi : ℚ) * 1000000 < price))
    ∧ evaluate_price 70000000 range25to60 = .overpriced := by
  refine ⟨evaluate_price_unknown_iff, evaluate_price_bands, ?_⟩
  unfold evaluate_price
  rw [show parseRange range25to60 = some (25, 60) from rfl]
  norm_num

/-- Claim C2, counterexample: for the parsed but decreasing range
100M-50M and price 80,000,000 the offered price exceeds the parsed high
bound, yet the code classifies UNDERPRICED (not OVERPRICED as the rule
price > high of the claim requires). -/
theorem c2_price_rule_counterexample :
    parseRange range100to50 = some (100, 50)
    ∧ (50 : ℚ) * 1000000 < 80000000
    ∧ evaluate_price 80000000 range100to50 = .underpriced := by
  refine ⟨rfl, by norm_num, ?_⟩
  unfold evaluate_price
  rw [show parseRange range100to50 = some (100, 50) from rfl]
  norm_num

/-- Claim C3: the capital-gain term of calculate_roi is
price * appreciationRate * years (linear, not compounded), the hidden-cost
total is oneTime + recurringAnnual * years with the documented component
make-up, and doubling the holding period doubles the capital gain and the
recurring component but leaves the one-time component unchanged. -/
theorem c3_roi_linearity (z : Zone) (price : ℚ) (y : ℤ)
    (hp : 0 < price) (hy : 1 ≤ y) :
    (calculate_roi z price y).map RoiResult.capital_gain
        = some (price * (z.appreciation_5yr * (y : ℚ)))
    ∧ (calculate_roi z price y).map RoiResult.total_hidden_costs
        = some (one_time_costs z + annual_costs z * (y : ℚ))
    ∧ one_time_costs z = z.omo_onile + z.land_survey
    ∧ annual_costs z = z.generator_diesel_monthly * 12 + z.flood_insurance
        + z.borehole_maintenance.getD 0 + z.estate_service_charge.getD 0
    ∧ (calculate_roi z price (2 * y)).map RoiResult.capital_gain
        = some (2 * (price * (z.appreciation_5yr * (y : ℚ))))
    ∧ (calculate_roi z price (2 * y)).map RoiResult.total_hidden_costs
        = some (one_time_costs z + 2 * (annual_costs z * (y : ℚ))) := by
  have hp0 : price ≠ 0 := ne_of_gt hp
  have hy0 : y ≠ 0 := by omega
  have hy2 : 2 * y ≠ 0 := by omega
  unfold calculate_roi
  rw [if_neg hp0, if_neg hy0, if_neg hp0, if_neg hy2]
  refine ⟨?_, ?_, rfl, rfl, ?_, ?_⟩ <;>
    simp only [capital_gain, total_hidden_costs, Option.map_some', Option.some_inj] <;>
    push_cast <;> ring

/-- Claim C3, witness at the concrete record ajahZone, price 45,000,000
and a five-year holding period. -/
theorem c3_roi_linearity_witness :
    (calculate_roi ajahZone 45000000 5).map RoiResult.capital_gain
        = some (45000000 * (ajahZone.appreciation_5yr * ((5 : ℤ) : ℚ)))
    ∧ (calculate_roi ajahZone 45000000 5).map RoiResult.total_hidden_costs
        = some (one_time_costs ajahZone + annual_costs ajahZone * ((5 : ℤ) : ℚ))
    ∧ one_time_costs ajahZone = ajahZone.omo_onile + ajahZone.land_survey
    ∧ annual_costs ajahZone = ajahZone.generator_diesel_monthly * 12
        + ajahZone.flood_insurance + ajahZone.borehole_maintenance.getD 0
        + ajahZone.estate_service_charge.getD 0
    ∧ (calculate_roi ajahZone 45000000 (2 * 5)).map RoiResult.capital_gain
        = some (2 * (45000000 * (ajahZone.appreciation_5yr * ((5 : ℤ) : ℚ))))
    ∧ (calculate_roi ajahZone 45000000 (2 * 5)).map RoiResult.total_hidden_costs
        = some (one_time_costs ajahZone
            + 2 * (annual_costs ajahZone * ((5 : ℤ) : ℚ))) :=
  c3_roi_linearity ajahZone 45000000 5 (by norm_num) (by norm_num)

/-- Claim C4: for any Distance Provider whose reported distances satisfy
the triangle inequality on the three points involved (as the great-circle
haversine distance of the source does), the corridor membership test holds
iff the detour d(o,p) + d(p,dst) - d(o,dst) is at most the corridor width,
with the boundary inclusive: a detour exactly equal to the width is
included. -/
theorem c4_corridor_membership (d : Coord → Coord → ℚ) (o dst p : Coord)
    (w : ℚ) (htri : d o dst ≤ d o p + d p dst) :
    (is_along_route d o dst p w = true ↔ d o p + d p dst - d o dst ≤ w)
    ∧ (d o p + d p dst - d o dst = w → is_along_route d o dst p w = true) := by
  have hiff : is_along_route d o dst p w = true ↔ d o p + d p dst - d o dst ≤ w := by
    unfold is_along_route
    rw [decide_eq_true_eq, abs_of_nonneg (by linarith)]
  exact ⟨hiff, fun he => hiff.mpr (le_of_eq he)⟩

/-- Claim C4, witness: the worked example of the spec — route of length 20,
corridor width 5, candidate with distances 12 and 13, so detour exactly 5 —
instantiated on the concrete distance table dRoute. -/
theorem c4_corridor_membership_witness :
    (is_along_route dRoute (1, 2) (5, 2) (3, 4) 5 = true
        ↔ dRoute (1, 2) (3, 4) + dRoute (3, 4) (5, 2) - dRoute (1, 2) (5, 2) ≤ 5)
    ∧ (dRoute (1, 2) (3, 4) + dRoute (3, 4) (5, 2) - dRoute (1, 2) (5, 2) = 5
        → is_along_route dRoute (1, 2) (5, 2) (3, 4) 5 = true) :=
  c4_corridor_membership dRoute (1, 2) (5, 2) (3, 4) 5
    (by norm_num [dRoute, Prod.mk.injEq])

/-- Claim C5 (amended): none of the three operations validates these
inputs.  analyze_property computes its score and tier for every price
(the price is never inspected for positivity, so the result is the same
for a non-positive price as for any other); calculate_roi computes a
result for every non-zero price and non-zero holding period, including
negative ones; and a corridor search with a negative width silently
returns an empty match list rather than an InvalidInput failure. -/
theorem c5_no_validation :
    (∀ (z : Zone) (p q : ℚ),
      (analyze_property z p).smart_score = (analyze_property z q).smart_score
      ∧ (analyze_property z p).overall_risk = (analyze_property z q).overall_risk)
    ∧ (∀ (z : Zone) (price : ℚ) (y : ℤ), price ≠ 0 → y ≠ 0 →
        (calculate_roi z price y).isSome = true)
    ∧ (∀ (d : Coord → Coord → ℚ) (zones : List (String × Zone))
        (o dst : Coord) (w : ℚ) (mp : Option ℤ) (ms mf : ℤ), w < 0 →
        corridor_matches d zones o dst w mp ms mf = []) := by
  refine ⟨fun z p q => ⟨rfl, rfl⟩, ?_, ?_⟩
  · intro z price y hp hy
    unfold calculate_roi
    simp [hp, hy]
  · intro d zones o dst w mp ms mf hw
    unfold corridor_matches
    rw [show (zones.filterMap fun nz =>
        if is_along_route d o dst nz.2.coordinates w
        then if zone_passes mp ms mf nz.2
          then some (mkMatch d o nz.1 nz.2) else none
        else none) = [] from ?_]
    · simp
    · rw [List.filterMap_eq_nil_iff]
      intro a ha
      rw [if_neg]
      rw [is_along_route]
      simp only [Bool.not_eq_true, decide_eq_false_iff_not, not_le]
      have habs : (0 : ℚ) ≤ |d o a.2.coordinates
          + d a.2.coordinates dst - d o dst| := abs_nonneg _
      linarith

/-- Claim C5, counterexample: at the non-positive price -1 calculate_roi
computes a result (no InvalidInput rejection), analyze_property computes
the full score, and the corridor search with negative width -1 returns an
ordinary empty result instead of failing. -/
theorem c5_reject_counterexample :
    (calculate_roi ajahZone (-1) 5).isSome = true
    ∧ (analyze_property ajahZone (-1)).smart_score = 44.5
    ∧ corridor_matches dTable [("Ajah", ajahZone)] (0, 0) (1, 1) (-1) none 50 80
        = [] := by
  refine ⟨?_, ?_, ?_⟩
  · simp [calculate_roi]
  · rw [analyze_smart_eq, round1_smart_score]
    norm_num [ajahZone]
  · unfold corridor_matches
    rw [show ([("Ajah", ajahZone)].filterMap fun nz =>
        if is_along_route dTable (0, 0) (1, 1) nz.2.coordinates (-1)
        then if zone_passes none 50 80 nz.2
          then some (mkMatch dTable (0, 0) nz.1 nz.2) else none
        else none) = [] from ?_]
    · simp
    · rw [List.filterMap_eq_nil_iff]
      intro a ha
      rw [if_neg]
      rw [is_along_route]
      simp only [Bool.not_eq_true, decide_eq_false_iff_not, not_le]
      have habs : (0 : ℚ) ≤ |dTable (0, 0) a.2.coordinates
          + dTable a.2.coordinates (1, 1) - dTable (0, 0) (1, 1)| := abs_nonneg _
      linarith

/-- Claim C6 (amended): search_route_corridor does NOT exclude the origin
or destination localities — a repository entry whose coordinates are the
origin has detour 0, so whenever the width is non-negative and the entry
passes the three filters it appears among the matches. -/
theorem c6_endpoints_included (d : Coord → Coord → ℚ)
    (zones : List (String × Zone)) (o dst : Coord) (w : ℚ) (mp : Option ℤ)
    (ms mf : ℤ) (n : String) (z : Zone)
    (hmem : (n, z) ∈ zones) (hcoord : z.coordinates = o) (hd : d o o = 0)
    (hw : 0 ≤ w) (hpass : zone_passes mp ms mf z = true) :
    mkMatch d o n z ∈ corridor_matches d zones o dst w mp ms mf := by
  unfold corridor_matches
  rw [List.mem_mergeSort, List.mem_filterMap]
  refine ⟨(n, z), hmem, ?_⟩
  rw [if_pos, if_pos hpass]
  unfold is_along_route
  rw [hcoord, decide_eq_true_eq, hd]
  simp
  linarith

/-- Claim C6, witness: the concrete search from the coordinates of the
entry Ajah includes that entry among the hypotheses-discharged matches. -/
theorem c6_endpoints_included_witness :
    mkMatch dTable (0, 0) "Ajah" ajahZone
      ∈ corridor_matches dTable [("Ajah", ajahZone)] (0, 0) (1, 1) 5 none 50 80 :=
  c6_endpoints_included dTable [("Ajah", ajahZone)] (0, 0) (1, 1) 5 none 50 80
    "Ajah" ajahZone (by simp) rfl (by simp [dTable]) (by norm_num)
    (by norm_num [zone_passes, pricePasses, ajahZone])

/-- Claim C6, counterexample: a corridor search whose origin coincides
with the repository entry Ajah returns that very locality as a match —
the endpoints are not excluded. -/
theorem c6_endpoint_counterexample :
    (corridor_matches dTable [("Ajah", ajahZone)] (0, 0) (1, 1) 5 none 50 80).map
        CorridorMatch.zone_name = ["Ajah"] := by
  unfold corridor_matches
  norm_num [is_along_route, zone_passes, pricePasses, mkMatch, ajahZone, dTable,
    List.filterMap]

/-- Claim C7: with every other parameter fixed, raising the security floor
never adds matches — every match under the stricter floor s2 is a match
under the laxer floor s1, and the match count is non-increasing, because
each of the three filters is a hard exclusion. -/
theorem c7_security_filter_monotone (d : Coord → Coord → ℚ)
    (zones : List (String × Zone)) (o dst : Coord) (w : ℚ) (mp : Option ℤ)
    (s1 s2 mf : ℤ) (hs : s1 ≤ s2) :
    (∀ m, m ∈ corridor_matches d zones o dst w mp s2 mf
        → m ∈ corridor_matches d zones o dst w mp s1 mf)
    ∧ (corridor_matches d zones o dst w mp s2 mf).length
        ≤ (corridor_matches d zones o dst w mp s1 mf).length := by
  have hkey : ∀ (nz : String × Zone) (m : CorridorMatch),
      (if is_along_route d o dst nz.2.coordinates w
       then if zone_passes mp s2 mf nz.2
         then some (mkMatch d o nz.1 nz.2) else none
       else none) = some m
      → (if is_along_route d o dst nz.2.coordinates w
       then if zone_passes mp s1 mf nz.2
         then some (mkMatch d o nz.1 nz.2) else none
       else none) = some m := by
    intro nz m hm
    by_cases ha : is_along_route d o dst nz.2.coordinates w
    · rw [if_pos ha] at hm ⊢
      by_cases hp : zone_passes mp s2 mf nz.2 = true
      · rw [if_pos (zone_passes_mono mp s1 s2 mf nz.2 hs hp)]
        rwa [if_pos hp] at hm
      · rw [if_neg hp] at hm; exact absurd hm (by simp)
    · rw [if_neg ha] at hm; exact absurd hm (by simp)
  constructor
  · intro m hm
    unfold corridor_matches at hm ⊢
    rw [List.mem_mergeSort, List.mem_filterMap] at hm ⊢
    obtain ⟨nz, hnz, hsome⟩ := hm
    exact ⟨nz, hnz, hkey nz m hsome⟩
  · unfold corridor_matches
    rw [List.length_mergeSort, List.length_mergeSort]
    exact filterMap_mono_length _ _ hkey zones

/-- Claim C7, witness: concrete corridor with security floors 50 and 60. -/
theorem c7_security_filter_monotone_witness :
    (∀ m, m ∈ corridor_matches dTable [("Ajah", ajahZone)] (0, 0) (1, 1) 5 none 60 80
        → m ∈ corridor_matches dTable [("Ajah", ajahZone)] (0, 0) (1, 1) 5 none 50 80)
    ∧ (corridor_matches dTable [("Ajah", ajahZone)] (0, 0) (1, 1) 5 none 60 80).length
        ≤ (corridor_matches dTable [("Ajah", ajahZone)] (0, 0) (1, 1) 5 none 50 80).length :=
  c7_security_filter_monotone dTable [("Ajah", ajahZone)] (0, 0) (1, 1) 5 none
    50 60 80 (by norm_num)

/-- Claim C8 (amended): the smart score annotated on every corridor match
is round(security * 0.35 + infrastructure * 0.35 + (100 - flood) * 0.30),
rounded to the nearest integer (ties to even) — the claim omitted the
rounding — and the corridor weights genuinely differ from the 0.4/0.3/0.3
of analyze_property: on the record with flood 75, security 55 and
infrastructure 60 the route score is 48 while analyze_property reports
44.5, and even unrounded the two weighted sums differ. -/
theorem c8_route_score_rounded :
    (∀ (d : Coord → Coord → ℚ) (zones : List (String × Zone)) (o dst : Coord)
        (w : ℚ) (mp : Option ℤ) (ms mf : ℤ) (m : CorridorMatch),
      m ∈ corridor_matches d zones o dst w mp ms mf
      → ∃ nz, nz ∈ zones
          ∧ m.smart_score = pyRound ((nz.2.security_score : ℚ) * 0.35
              + (nz.2.infrastructure_score : ℚ) * 0.35
              + (100 - (nz.2.flood_score : ℚ)) * 0.30))
    ∧ ((route_smart_score ajahZone : ℚ)
        ≠ (analyze_property ajahZone 45000000).smart_score)
    ∧ ((55 : ℚ) * 0.35 + (60 : ℚ) * 0.35 + (100 - (75 : ℚ)) * 0.30
        ≠ (100 - (75 : ℚ)) * 0.4 + (55 : ℚ) * 0.3 + (60 : ℚ) * 0.3) := by
  refine ⟨?_, ?_, by norm_num⟩
  · intro d zones o dst w mp ms mf m hm
    unfold corridor_matches at hm
    rw [List.mem_mergeSort, List.mem_filterMap] at hm
    obtain ⟨nz, hnz, hsome⟩ := hm
    refine ⟨nz, hnz, ?_⟩
    by_cases ha : is_along_route d o dst nz.2.coordinates w
    · rw [if_pos ha] at hsome
      by_cases hp : zone_passes mp ms mf nz.2 = true
      · rw [if_pos hp] at hsome
        obtain rfl := (Option.some_inj.mp hsome).symm
        rfl
      · rw [if_neg hp] at hsome; exact absurd hsome (by simp)
    · rw [if_neg ha] at hsome; exact absurd hsome (by simp)
  · rw [analyze_smart_eq, round1_smart_score]
    norm_num [route_smart_score, ajahZone, pyRound]

/-- Claim C8, counterexample: on the concrete corridor match for the
record with security 55, infrastructure 60 and flood 75 the annotated
smart score is the integer 48, which is not equal to the unrounded
weighted sum 47.75 the claim asserts it to be. -/
theorem c8_route_score_counterexample :
    (corridor_matches dTable [("Ajah", ajahZone)] (0, 0) (1, 1) 5 none 50 80).map
        CorridorMatch.smart_score = [48]
    ∧ ((48 : ℚ)
        ≠ (55 : ℚ) * 0.35 + (60 : ℚ) * 0.35 + (100 - (75 : ℚ)) * 0.30) := by
  constructor
  · unfold corridor_matches
    norm_num [is_along_route, zone_passes, pricePasses, mkMatch, ajahZone, dTable,
      List.filterMap, route_smart_score, pyRound]
  · norm_num

/-- Claim C9: when the budget is smaller than the implied area, the
integer-truncated budget / area is 0, a ceiling of 0 is falsy so every
candidate passes the price check, and the whole budget search coincides
with the search with no price ceiling at all. -/
theorem c9_budget_zero_disables_price_filter (d : Coord → Coord → ℚ)
    (zones : List (String × Zone)) (o dst : Coord) (w : ℚ)
    (budget bedrooms : ℤ) (hb0 : 0 ≤ budget)
    (hb : budget < sqm_estimate bedrooms) :
    pyInt ((budget : ℚ) / (sqm_estimate bedrooms : ℚ)) = 0
    ∧ (∀ p : ℤ, pricePasses (some 0) p = true)
    ∧ search_by_budget d zones o dst budget bedrooms w
        = corridor_matches d zones o dst w none 50 70 := by
  have hs := sqm_estimate_pos bedrooms
  have hq0 : (0 : ℚ) ≤ (budget : ℚ) / (sqm_estimate bedrooms : ℚ) := by
    apply div_nonneg <;> exact_mod_cast (by omega : (0 : ℤ) ≤ _)
  have hq1 : (budget : ℚ) / (sqm_estimate bedrooms : ℚ) < 1 := by
    rw [div_lt_one (by exact_mod_cast hs)]
    exact_mod_cast hb
  have hzero : pyInt ((budget : ℚ) / (sqm_estimate bedrooms : ℚ)) = 0 := by
    unfold pyInt
    rw [if_pos hq0, Int.floor_eq_zero_iff]
    exact ⟨hq0, hq1⟩
  refine ⟨hzero, fun p => by simp [pricePasses], ?_⟩
  unfold search_by_budget
  simp only []
  rw [hzero]
  unfold corridor_matches
  have hfun : (fun nz : String × Zone =>
      if is_along_route d o dst nz.2.coordinates w
      then if zone_passes (some 0) 50 70 nz.2
        then some (mkMatch d o nz.1 nz.2) else none
      else none)
      = (fun nz : String × Zone =>
      if is_along_route d o dst nz.2.coordinates w
      then if zone_passes none 50 70 nz.2
        then some (mkMatch d o nz.1 nz.2) else none
      else none) := by
    funext nz
    have hpp : zone_passes (some 0) 50 70 nz.2 = zone_passes none 50 70 nz.2 := by
      simp [zone_passes, pricePasses]
    rw [hpp]
  rw [hfun]

/-- Claim C9, witness: budget 100 naira against the 120 square metres
implied by 3 bedrooms truncates to a ceiling of 0 and disables the price
filter. -/
theorem c9_budget_zero_disables_price_filter_witness :
    pyInt ((100 : ℚ) / ((sqm_estimate 3 : ℤ) : ℚ)) = 0
    ∧ (∀ p : ℤ, pricePasses (some 0) p = true)
    ∧ search_by_budget dTable [("Ajah", ajahZone)] (0, 0) (1, 1) 100 3 5
        = corridor_matches dTable [("Ajah", ajahZone)] (0, 0) (1, 1) 5 none 50 70 :=
  c9_budget_zero_disables_price_filter dTable [("Ajah", ajahZone)] (0, 0) (1, 1)
    5 100 3 (by norm_num) (by norm_num [sqm_estimate])

/-- Claim C10: calculate_roi divides the net return by the price with no
guard; over the documented input domain (holding period at least one
year) the operation produces a result exactly when the price is non-zero,
and at price 0 the division error leaves no defined result. -/
theorem c10_roi_division_guard (z : Zone) (price : ℚ) (y : ℤ) (hy : 1 ≤ y) :
    (calculate_roi z price y).isSome = true ↔ price ≠ 0 := by
  have hy0 : y ≠ 0 := by omega
  unfold calculate_roi
  by_cases hp : price = 0
  · simp [hp]
  · simp [hp, hy0]

/-- Claim C10, witness at the default five-year holding period. -/
theorem c10_roi_division_guard_witness :
    (calculate_roi ajahZone 45000000 5).isSome = true ↔ (45000000 : ℚ) ≠ 0 :=
  c10_roi_division_guard ajahZone 45000000 5 (by norm_num)

end NaijaPropIntel
